import Mathlib

/-!
Verification of the dev-team multi-agent orchestration core.

The definitions below are a shallow embedding of the JavaScript sources:
  * `FileLockManager`  — src/web/managers/FileLockManager.js plus the
    `file_locks` table constraints of migration 002 (src/unnamed/part_002);
  * `TaskManager`      — src/web/managers/TaskManager.js;
  * `Agent`            — src/Agent.js (`generateResponse`);
  * `MultiAgentSessionManager` — src/web/managers/MultiAgentSessionManager.js
    (`executeAgentTask`), with `AgentManager` row updates inlined;
  * `CoordinatorAgent` — src/web/agents/CoordinatorAgent.js (`assignTask`).

Modelling conventions: timestamps are naturals (milliseconds); the SQLite
store is a list of rows threaded through each operation; JavaScript
exceptions become `Except` values carrying the thrown message (quote
characters inside message literals are omitted); WebSocket broadcasts and
console logging are pure side channels with no effect on the stored state
and are not modelled.
-/

namespace DevTeam

/-! ## Lock registry (FileLockManager.js + file_locks schema) -/

inductive LockType where
  | read
  | write
deriving DecidableEq, Repr

/-- One row of the `file_locks` table. -/
structure LockRow where
  id : Nat
  project_id : Nat
  file_path : String
  locked_by_agent_id : Nat
  lock_type : LockType
  acquired : Nat
  expires : Nat
deriving DecidableEq, Repr

/-- The `file_locks` table plus the AUTOINCREMENT counter. -/
structure LockDb where
  rows : List LockRow
  nextId : Nat
deriving DecidableEq, Repr

namespace FileLockManager

/-- From the source: `this.defaultExpirationMs = 5 * 60 * 1000`. -/
def defaultExpirationMs : Nat := 5 * 60 * 1000

/-- Row matches the `WHERE project_id = ? AND file_path = ?` filter. -/
def matchesPath (p : Nat) (path : String) (r : LockRow) : Bool :=
  r.project_id = p && r.file_path = path

/-- From the source: `ORDER BY CASE WHEN lock_type = 'write' THEN 0 ELSE 1 END, acquired`:
`a` sorts strictly before `b`. -/
def sortsBefore (a b : LockRow) : Bool :=
  let ra : Nat := if a.lock_type = .write then 0 else 1
  let rb : Nat := if b.lock_type = .write then 0 else 1
  ra < rb || (ra = rb && a.acquired < b.acquired)

/-- From the source: `SELECT * ... ORDER BY ... LIMIT 1` over the filtered rows (first row
wins on incomparable keys, matching insertion order). -/
def selectLock (rows : List LockRow) (p : Nat) (path : String) : Option LockRow :=
  (rows.filter (matchesPath p path)).foldl
    (fun acc r =>
      match acc with
      | none => some r
      | some a => if sortsBefore r a then some r else some a)
    none

/-- From the source: `releaseLock`: `DELETE FROM file_locks WHERE project_id = ? AND
file_path = ? AND locked_by_agent_id = ?`; returns `changes > 0`. -/
def releaseLock (db : LockDb) (p : Nat) (path : String) (agent : Nat) :
    LockDb × Bool :=
  let keep := db.rows.filter
    (fun r => !(matchesPath p path r && r.locked_by_agent_id = agent))
  ({ db with rows := keep }, keep.length < db.rows.length)

/-- From the source: `checkLock(projectId, filePath)`: select the most restrictive lock; if
its expiry has passed, auto-release it (all of that holder's locks on the
path) and report `none`. -/
def checkLock (db : LockDb) (p : Nat) (path : String) (now : Nat) :
    LockDb × Option LockRow :=
  match selectLock db.rows p path with
  | none => (db, none)
  | some l =>
    if l.expires < now then
      ((releaseLock db p path l.locked_by_agent_id).1, none)
    else
      (db, some l)

/-- Errors thrown by `acquireLock` (`Error` messages in the source). -/
inductive AcquireError where
  /-- From the source: `projectId, filePath, and agentId are required`. -/
  | requiredArgs
  /-- From the source: `File ... is locked by agent <holder> (<kind> lock). Wait for lock to
  be released.` -/
  | conflict (holder : Nat) (kind : LockType)
  /-- UNIQUE constraint violation on `(project_id, file_path, lock_type)`:
  `File ... was locked by another agent concurrently`. -/
  | concurrentLock
deriving DecidableEq, Repr

/-- The `INSERT INTO file_locks ...` of `acquireLock`, subject to the
schema constraint `UNIQUE(project_id, file_path, lock_type)`. -/
def insertLock (db : LockDb) (p : Nat) (path : String) (agent : Nat)
    (kind : LockType) (expiresIn : Option Nat) (now : Nat) :
    LockDb × Except AcquireError LockRow :=
  let expirationMs :=
    match expiresIn with
    | none => defaultExpirationMs
    | some n => if n = 0 then defaultExpirationMs else n
  let row : LockRow :=
    { id := db.nextId, project_id := p, file_path := path
      locked_by_agent_id := agent, lock_type := kind
      acquired := now, expires := now + expirationMs }
  if db.rows.any (fun r => matchesPath p path r && r.lock_type = kind) then
    (db, .error .concurrentLock)
  else
    ({ rows := db.rows ++ [row], nextId := db.nextId + 1 }, .ok row)

/-- From the source: `acquireLock(projectId, filePath, agentId, lockType, expiresIn)`.
`expiresIn = none` models the JavaScript `null` default; the
`expiresIn || this.defaultExpirationMs` fallback also maps `0` to the
default (both are falsy). -/
def acquireLock (db : LockDb) (p : Nat) (path : String) (agent : Nat)
    (kind : LockType) (expiresIn : Option Nat) (now : Nat) :
    LockDb × Except AcquireError LockRow :=
  if p = 0 ∨ path = "" ∨ agent = 0 then
    (db, .error .requiredArgs)
  else
    match checkLock db p path now with
    | (db1, some existing) =>
      if existing.locked_by_agent_id = agent ∧ existing.lock_type = kind then
        (db1, .ok existing)
      else if kind = .write ∨ existing.lock_type = .write then
        (db1, .error (.conflict existing.locked_by_agent_id existing.lock_type))
      else
        insertLock db1 p path agent kind expiresIn now
    | (db1, none) =>
      insertLock db1 p path agent kind expiresIn now

/-- From the source: `releaseAllAgentLocks(agentId)`:
`DELETE FROM file_locks WHERE locked_by_agent_id = ?`. -/
def releaseAllAgentLocks (db : LockDb) (agent : Nat) : LockDb :=
  { db with rows := db.rows.filter (fun r => !(r.locked_by_agent_id = agent)) }

end FileLockManager

/-! ## Task store (TaskManager.js) -/

/-- The `status` column of `agent_tasks` (the six valid statuses of
`updateTaskStatus`). -/
inductive TaskStatus where
  | pending
  | assigned
  | in_progress
  | completed
  | failed
  | blocked
deriving DecidableEq, Repr

/-- One row of the `agent_tasks` table. -/
structure TaskRow where
  id : Nat
  project_id : Nat
  agent_id : Option Nat
  assigned_by_agent_id : Option Nat
  title : String
  description : String
  status : TaskStatus
  priority : Int
  result : Option String
  error : Option String
  created : Nat
  started : Option Nat
  completed : Option Nat
deriving DecidableEq, Repr

namespace TaskManager

/-- The row built by `createTask` (status is always `pending`, no assigned
agent, no result/error/timestamps yet). -/
def newTask (id projectId : Nat) (title description : String)
    (assignedBy : Option Nat) (priority : Int) (now : Nat) : TaskRow :=
  { id := id, project_id := projectId, agent_id := none
    assigned_by_agent_id := assignedBy, title := title
    description := description, status := .pending, priority := priority
    result := none, error := none, created := now
    started := none, completed := none }

/-- The row-level effect of `updateTaskStatus(taskId, status, result,
error)` on the task it found: `started` is stamped only on the first
transition into `in_progress`, `completed` only on the first transition
into `completed`/`failed`; `status`, `result` and `error` are written from
the arguments unconditionally. -/
def updateTaskStatus (t : TaskRow) (status : TaskStatus)
    (result error : Option String) (now : Nat) : TaskRow :=
  let started :=
    if status = .in_progress ∧ t.started = none then some now else t.started
  let completed :=
    if (status = .completed ∨ status = .failed) ∧ t.completed = none then
      some now
    else t.completed
  { t with status := status, result := result, error := error
           started := started, completed := completed }

/-- One recorded call to `updateTaskStatus` (arguments plus the call's
observed clock value). -/
structure UpdateCall where
  status : TaskStatus
  result : Option String
  error : Option String
  now : Nat
deriving DecidableEq, Repr

/-- A sequence of `updateTaskStatus` calls applied to one task row. -/
def applyUpdates (t : TaskRow) (ops : List UpdateCall) : TaskRow :=
  ops.foldl (fun acc op => updateTaskStatus acc op.status op.result op.error op.now) t

/-- The clock value of the first call in `ops` whose status satisfies
`pred` (specification-side helper for the first-stamp property). -/
def firstTime (pred : TaskStatus → Bool) (ops : List UpdateCall) : Option Nat :=
  (ops.find? (fun op => pred op.status)).map (fun op => op.now)

/-- Left-biased choice on `Option` (an already-set timestamp wins). -/
def keepFirst (a b : Option Nat) : Option Nat :=
  match a with
  | some x => some x
  | none => b

def isInProgress (s : TaskStatus) : Bool := s = .in_progress

def isTerminal (s : TaskStatus) : Bool := s = .completed || s = .failed

end TaskManager

/-! ## Reasoning loop (Agent.js, generateResponse)

The LLM transport is modelled as an oracle `svc` mapping the index of the
fetch (0-based, counting both `callLLM` and the tool-feedback fetch) to
either a transport failure (the `!response.ok` branch, carrying the error
text) or a parsed `choices[0].message`.  Tool execution (`executeTools`,
which never throws — it catches per call) is an oracle from the requested
tool calls to their result list. -/

inductive ChatRole where
  | system
  | user
  | assistant
  | tool
deriving DecidableEq, Repr

/-- One entry of `this.history`. -/
structure ChatMsg where
  role : ChatRole
  content : String
deriving DecidableEq, Repr

/-- One entry of a `message.tool_calls` array. -/
structure ToolCall where
  id : String
  name : String
  args : String
deriving DecidableEq, Repr

/-- A parsed `choices[0].message`: assistant text plus requested tool
calls (`tool_calls` missing/empty is the empty list). -/
structure LLMMessage where
  content : String
  tool_calls : List ToolCall
deriving DecidableEq, Repr

/-- One element of the `toolExecutions` log (the object built by
`executeTools` for each call). -/
structure ToolResult where
  toolCallId : String
  toolName : String
  success : Bool
  summary : String
  details : String
  error : Option String
deriving DecidableEq, Repr

/-- The errors `generateResponse` can propagate. -/
inductive AgentError where
  /-- From the source: `Xai API Error: Status ...` — the `callLLM` fetch was not ok. -/
  | xaiApiError (msg : String)
  /-- From the source: `Xai tool feedback error: Status ...` — the feedback fetch was not ok. -/
  | xaiToolFeedbackError (msg : String)
  /-- From the source: `TypeError: Assignment to constant variable.` — the
  `message = toolMessage` statement writes to the `const message` binding
  of the same loop iteration, which throws in an ES module. -/
  | typeErrorConstAssignment
  /-- From the source: `Maximum iterations reached. The task may be too complex or the
  agent is stuck in a loop.` -/
  | maxIterationsReached
deriving DecidableEq, Repr

/-- The value of a successful `generateResponse`. -/
structure AgentRunResult where
  content : String
  toolExecutions : List ToolResult
deriving DecidableEq, Repr

namespace Agent

def MAX_ITERATIONS : Nat := 10

/-- The body of the `while (iteration < MAX_ITERATIONS)` loop of
`generateResponse`.  `fuel` counts the iterations still allowed, `k` the
number of fetches already issued, `hist` the current `this.history`, and
`log` the accumulated `toolExecutions`.

Each iteration: `callLLM` (fetch `k`); push the assistant turn; if there
are no tool calls, return.  Otherwise run the tools, send the feedback
fetch (`k+1`), push the new assistant turn, and return if it requests no
further tools.  If it does request more, the source executes
`message = toolMessage` — an assignment to the `const message` declared in
the same iteration — which throws a `TypeError`, so the loop can never
reach a second iteration with pending tool calls and the `fuel = 0`
(maximum-iterations) branch is unreachable from `fuel = 10`. -/
def loopIter (svc : Nat → Except String LLMMessage)
    (exec : List ToolCall → List ToolResult) :
    Nat → Nat → List ChatMsg → List ToolResult →
    List ChatMsg × Except AgentError AgentRunResult
  | 0, _, hist, _ => (hist, .error .maxIterationsReached)
  | _ + 1, k, hist, log =>
    match svc k with
    | .error e => (hist, .error (.xaiApiError e))
    | .ok msg =>
      let hist1 := hist ++ [⟨.assistant, msg.content⟩]
      if msg.tool_calls.isEmpty then
        (hist1, .ok ⟨msg.content, log⟩)
      else
        let log1 := log ++ exec msg.tool_calls
        match svc (k + 1) with
        | .error e => (hist1, .error (.xaiToolFeedbackError e))
        | .ok toolMessage =>
          let hist2 := hist1 ++ [⟨.assistant, toolMessage.content⟩]
          if toolMessage.tool_calls.isEmpty then
            (hist2, .ok ⟨toolMessage.content, log1⟩)
          else
            (hist2, .error .typeErrorConstAssignment)

/-- The `catch` block of `generateResponse`: pop the just-appended user
message iff it is still the last history entry, then rethrow. -/
def rollbackUserTurn (hist : List ChatMsg) : List ChatMsg :=
  match hist.getLast? with
  | some m => if m.role = .user then hist.dropLast else hist
  | none => hist

/-- From the source: `generateResponse(prompt)`: push the user turn, run the bounded loop,
and on any thrown error apply the rollback of the `catch` block.  Returns
the final `this.history` alongside the outcome. -/
def generateResponse (svc : Nat → Except String LLMMessage)
    (exec : List ToolCall → List ToolResult)
    (hist0 : List ChatMsg) (prompt : String) :
    List ChatMsg × Except AgentError AgentRunResult :=
  match loopIter svc exec MAX_ITERATIONS 0 (hist0 ++ [⟨.user, prompt⟩]) [] with
  | (h, .ok r) => (h, .ok r)
  | (h, .error e) => (rollbackUserTurn h, .error e)

end Agent

/-! ## Orchestrator (MultiAgentSessionManager.js)

The manager's state bundles the relevant store tables (`agents`,
`agent_tasks`, `file_locks`, `agent_messages`) with the in-memory pool:
the loaded instances' conversation histories (`mem`, keyed by agent id)
and the `runningAgents` flag map.  `agent_messages` rows are kept as the
per-agent saved history (`saved`) since `saveAgentHistory` replaces an
agent's rows wholesale.  The run of `agentInstance.executeTask(prompt)` is
an oracle `run` from the instance's history to the mutated history plus
either the result content or the thrown error message; project/baseDir and
system-prompt resolution, WebSocket events and the dead
`agentManager.getAgent` read of `executeAgentTask` have no effect on this
state and are not modelled. -/

/-- The `status` column of the `agents` table. -/
inductive AgentStatus where
  | idle
  | working
  | waiting
  | paused
deriving DecidableEq, Repr

/-- One row of the `agents` table. -/
structure AgentRow where
  id : Nat
  project_id : Nat
  name : String
  role : String
  status : AgentStatus
  current_task_id : Option Nat
  created : Nat
deriving DecidableEq, Repr

/-- Association-list lookup (keys are ids). -/
def alookup {α : Type} (l : List (Nat × α)) (k : Nat) : Option α :=
  (l.find? (fun e => e.1 = k)).map (fun e => e.2)

/-- Association-list update: replace the binding of `k`, or append one. -/
def aset {α : Type} (l : List (Nat × α)) (k : Nat) (v : α) : List (Nat × α) :=
  if l.any (fun e => e.1 = k) then
    l.map (fun e => if e.1 = k then (k, v) else e)
  else
    l ++ [(k, v)]

/-- The orchestrator's state. -/
structure OrchState where
  agents : List AgentRow
  tasks : List TaskRow
  nextTaskId : Nat
  locks : LockDb
  saved : List (Nat × List ChatMsg)
  mem : List (Nat × List ChatMsg)
  running : List (Nat × Bool)
deriving DecidableEq, Repr

namespace MultiAgentSessionManager

/-- From the source: `this.runningAgents.get(agentId)` coerced to a boolean
(`isRunning`). -/
def isRunningFlag (st : OrchState) (agentId : Nat) : Bool :=
  (alookup st.running agentId).getD false

/-- From the source: `this.runningAgents.set(agentId, b)`. -/
def setRunning (st : OrchState) (agentId : Nat) (b : Bool) : OrchState :=
  { st with running := aset st.running agentId b }

/-- From the source: `UPDATE agents SET ... WHERE id = ?` (no-op when no row matches). -/
def updateAgentRow (st : OrchState) (agentId : Nat) (f : AgentRow → AgentRow) :
    OrchState :=
  { st with agents := st.agents.map (fun a => if a.id = agentId then f a else a) }

/-- From the source: `TaskManager.getTask`. -/
def findTask (tasks : List TaskRow) (taskId : Nat) : Option TaskRow :=
  tasks.find? (fun t => t.id = taskId)

/-- From the source: `UPDATE agent_tasks ... WHERE id = ?`. -/
def mapTask (tasks : List TaskRow) (taskId : Nat) (f : TaskRow → TaskRow) :
    List TaskRow :=
  tasks.map (fun t => if t.id = taskId then f t else t)

/-- The state after rewriting one task row via the pure row update. -/
def applyTaskUpdate (st : OrchState) (taskId : Nat) (status : TaskStatus)
    (result error : Option String) (now : Nat) : OrchState :=
  let tasks1 :=
    mapTask st.tasks taskId
      (fun t => TaskManager.updateTaskStatus t status result error now)
  { st with tasks := tasks1 }

/-- From the source: `TaskManager.updateTaskStatus` at the store level: throws
`Task <id> not found` when the row is missing, otherwise rewrites the row
via the pure row update. -/
def updateTaskStatusDb (st : OrchState) (taskId : Nat) (status : TaskStatus)
    (result error : Option String) (now : Nat) : OrchState × Except String Unit :=
  match findTask st.tasks taskId with
  | none => (st, .error ("Task " ++ toString taskId ++ " not found"))
  | some _ => (applyTaskUpdate st taskId status result error now, .ok ())

/-- From the source: `fileLockManager.releaseAllAgentLocks(agentId)` applied to the state. -/
def releaseLocksOf (st : OrchState) (agentId : Nat) : OrchState :=
  { st with locks := FileLockManager.releaseAllAgentLocks st.locks agentId }

/-- From the source: `getAgentInstance(agentId)`: return the cached instance's history, or
load the agent (failing with `Agent <id> not found` when the `agents` row
is missing), read its saved history, and register it in the pool. -/
def getAgentInstance (st : OrchState) (agentId : Nat) :
    OrchState × Except String (List ChatMsg) :=
  match alookup st.mem agentId with
  | some h => (st, .ok h)
  | none =>
    match st.agents.find? (fun a => a.id = agentId) with
    | none => (st, .error ("Agent " ++ toString agentId ++ " not found"))
    | some _ =>
      let h := (alookup st.saved agentId).getD []
      ({ st with mem := aset st.mem agentId h }, .ok h)

/-- From the source: `saveAgentHistory(agentId)`: replace the agent's `agent_messages` rows
with its in-memory history (an unloaded agent saves nothing). -/
def saveAgentHistory (st : OrchState) (agentId : Nat) : OrchState :=
  match alookup st.mem agentId with
  | none => st
  | some h => { st with saved := aset st.saved agentId h }

/-- The `catch` block: mark the task failed (when present; if that update
itself throws, the new error escapes past the rest of the cleanup), set
the agent row idle, release the agent's file locks, and rethrow; the
`finally` clears the running flag on every path. -/
def execCatch (st : OrchState) (agentId : Nat) (taskId : Option Nat)
    (errMsg : String) (now : Nat) : OrchState × Except String String :=
  match taskId with
  | some tid =>
    match updateTaskStatusDb st tid .failed none (some errMsg) now with
    | (st1, .error e2) => (setRunning st1 agentId false, .error e2)
    | (st1, .ok _) =>
      let st2 := updateAgentRow st1 agentId (fun a => { a with status := .idle })
      let st3 := releaseLocksOf st2 agentId
      (setRunning st3 agentId false, .error errMsg)
  | none =>
    let st2 := updateAgentRow st agentId (fun a => { a with status := .idle })
    let st3 := releaseLocksOf st2 agentId
    (setRunning st3 agentId false, .error errMsg)

/-- Tail of the `try` block after a successful run: mark the task
completed (when present), save history, reset the agent row to idle with
no current task, release the agent's file locks; the `finally` clears the
running flag before the value is returned. -/
def execSuccessTail (st : OrchState) (agentId : Nat) (taskId : Option Nat)
    (content : String) (now : Nat) : OrchState × Except String String :=
  let afterTask :=
    match taskId with
    | none => (st, Except.ok ())
    | some tid => updateTaskStatusDb st tid .completed (some content) none now
  match afterTask with
  | (st1, .error e) => execCatch st1 agentId taskId e now
  | (st1, .ok _) =>
    let st2 := saveAgentHistory st1 agentId
    let st3 := updateAgentRow st2 agentId
      (fun a => { a with current_task_id := none, status := .idle })
    let st4 := releaseLocksOf st3 agentId
    (setRunning st4 agentId false, .ok content)

/-- The run phase: invoke the instance's `executeTask` oracle on its
current history; the mutated history sticks to the instance whether the
run returned or threw. -/
def execRunPhase (st : OrchState) (agentId : Nat) (taskId : Option Nat)
    (run : List ChatMsg → List ChatMsg × Except String String) (now : Nat) :
    OrchState × Except String String :=
  let h := (alookup st.mem agentId).getD []
  let out := run h
  let st1 := { st with mem := aset st.mem agentId out.1 }
  match out.2 with
  | .ok content => execSuccessTail st1 agentId taskId content now
  | .error e => execCatch st1 agentId taskId e now

/-- The task-bearing branch of the `try` block: `assignTask` already
applied, mark the task `in_progress` (a failure there is caught by the
`catch` block) and enter the run phase. -/
def execWithTask (st : OrchState) (agentId tid : Nat)
    (run : List ChatMsg → List ChatMsg × Except String String) (now : Nat) :
    OrchState × Except String String :=
  match updateTaskStatusDb st tid .in_progress none none now with
  | (st5, .error e) => execCatch st5 agentId (some tid) e now
  | (st5, .ok _) => execRunPhase st5 agentId (some tid) run now

/-- From the source: `executeAgentTask(agentId, taskId, prompt)`: load the instance, reject
with `Agent <id> is already running a task` when the running flag is set,
otherwise set the flag, mark the agent working (and the task assigned /
`in_progress` when a task id is given), run, and clean up on every exit
path as in the source's `try`/`catch`/`finally`. -/
def executeAgentTask (st0 : OrchState) (agentId : Nat) (taskId : Option Nat)
    (run : List ChatMsg → List ChatMsg × Except String String) (now : Nat) :
    OrchState × Except String String :=
  match getAgentInstance st0 agentId with
  | (st1, .error e) => (st1, .error e)
  | (st1, .ok _) =>
    if isRunningFlag st1 agentId then
      (st1, .error ("Agent " ++ toString agentId ++ " is already running a task"))
    else
      let st2 := setRunning st1 agentId true
      let st3 := updateAgentRow st2 agentId (fun a => { a with status := .working })
      match taskId with
      | none => execRunPhase st3 agentId none run now
      | some tid =>
        let st4 := updateAgentRow st3 agentId
          (fun a => { a with current_task_id := some tid, status := .working })
        execWithTask st4 agentId tid run now

end MultiAgentSessionManager

/-! ## Coordinator delegation (CoordinatorAgent.js, assignTask) -/

/-- The `data` payload of an `assign_task` result: the created task id,
the assignee when one was found, and the reported task status. -/
structure AssignData where
  taskId : Nat
  agentId : Option Nat
  status : TaskStatus
deriving DecidableEq, Repr

/-- The structured result object of a coordinator tool (summary/details
text is carried without the quote characters of the source literals). -/
structure CoordResult where
  success : Bool
  summary : String
  data : Option AssignData
deriving DecidableEq, Repr

namespace CoordinatorAgent

/-- From the source: `AgentManager.getAgentByRole(projectId, role)`:
`SELECT * FROM agents WHERE project_id = ? AND role = ? ORDER BY created
LIMIT 1` (first row wins on equal `created`). -/
def getAgentByRole (agents : List AgentRow) (projectId : Nat) (role : String) :
    Option AgentRow :=
  (agents.filter (fun a => a.project_id = projectId && a.role = role)).foldl
    (fun acc a =>
      match acc with
      | none => some a
      | some b => if a.created < b.created then some a else some b)
    none

/-- From the source: `assignTask({agentRole, taskTitle, taskDescription, priority})`: after
the argument check, create a `pending` task attributed to the coordinator;
if no agent in the project has the requested role, report failure carrying
the created task id; otherwise assign the task (status `assigned`, agent
id set) and report success.  A thrown error (coordinator row missing, the
`createTask` argument guard, or `assignTaskToAgent` refusing a non-pending
status) is caught and reported as a `Failed to assign task` result. -/
def assignTask (st : OrchState) (coordId : Nat)
    (agentRole taskTitle taskDescription : String) (priority : Int)
    (now : Nat) : OrchState × CoordResult :=
  if agentRole = "" ∨ taskTitle = "" ∨ taskDescription = "" then
    (st, { success := false
           summary := "Missing required arguments: agentRole, taskTitle, taskDescription"
           data := none })
  else
    match st.agents.find? (fun a => a.id = coordId) with
    | none =>
      (st, { success := false
             summary := "Failed to assign task: coordinator agent not found"
             data := none })
    | some coord =>
      if coord.project_id = 0 then
        (st, { success := false
               summary := "Failed to assign task: projectId, title, and description are required"
               data := none })
      else
        let task := TaskManager.newTask st.nextTaskId coord.project_id
          taskTitle taskDescription (some coordId) priority now
        let st1 := { st with tasks := st.tasks ++ [task]
                             nextTaskId := st.nextTaskId + 1 }
        match getAgentByRole st1.agents coord.project_id agentRole with
        | none =>
          (st1, { success := false
                  summary := "No agent found with role " ++ agentRole
                  data := some { taskId := task.id, agentId := none
                                 status := .pending } })
        | some target =>
          if task.status = .pending ∨ task.status = .assigned then
            let tasks2 := MultiAgentSessionManager.mapTask st1.tasks task.id
              (fun t => { t with agent_id := some target.id, status := .assigned })
            ({ st1 with tasks := tasks2 },
             { success := true
               summary := "Task assigned to " ++ target.name ++ " (" ++ agentRole ++ ")"
               data := some { taskId := task.id, agentId := some target.id
                              status := .assigned } })
          else
            (st1, { success := false
                    summary := "Failed to assign task: cannot assign task with this status"
                    data := none })

end CoordinatorAgent

/-! ## Concrete fixtures used by the counterexamples and witnesses -/

/-- An empty `file_locks` table. -/
def emptyLockDb : LockDb := { rows := [], nextId := 1 }

/-- The table after agent 1 takes a read lock on `src/app.js` at time 0. -/
def oneReadLockDb : LockDb :=
  (FileLockManager.acquireLock emptyLockDb 1 "src/app.js" 1 .read none 0).1

/-- The table after agent 1 takes a write lock on `a.txt` at time 0 with
`expiresIn = 0` (which the source's `||` fallback maps to the 5-minute
default). -/
def ttlZeroLockDb : LockDb :=
  (FileLockManager.acquireLock emptyLockDb 1 "a.txt" 1 .write (some 0) 0).1

/-- The table after agent 1 takes a write lock on `b.txt` at time 0 with a
1000 ms ttl. -/
def shortWriteLockDb : LockDb :=
  (FileLockManager.acquireLock emptyLockDb 1 "b.txt" 1 .write (some 1000) 0).1

/-- A reasoning-service stub whose every response requests one action. -/
def alwaysToolSvc : Nat → Except String LLMMessage :=
  fun _ => .ok { content := "", tool_calls := [⟨"call_1", "run_command", ""⟩] }

/-- A reasoning-service stub whose first response requests one action and
whose feedback fetch fails at the transport level. -/
def feedbackFailSvc : Nat → Except String LLMMessage :=
  fun k =>
    if k = 0 then .ok { content := "a", tool_calls := [⟨"call_1", "run_command", ""⟩] }
    else .error "boom"

/-- A reasoning-service stub that fails on the very first fetch. -/
def firstCallFailSvc : Nat → Except String LLMMessage :=
  fun _ => .error "down"

/-- The tool results produced by `executeTools` over a tool invoker that
always throws: every call is caught and reported as a failed result. -/
def throwingInvokerExec : List ToolCall → List ToolResult :=
  fun tcs => tcs.map (fun tc =>
    { toolCallId := tc.id, toolName := tc.name, success := false
      summary := "Failed to execute " ++ tc.name, details := "boom"
      error := some "boom" })

/-- A worker agent row (id 7, project 1). -/
def workerRow : AgentRow :=
  { id := 7, project_id := 1, name := "w", role := "backend"
    status := .idle, current_task_id := none, created := 0 }

/-- An orchestrator state with agent 7 loaded (empty history), holding one
write lock, with nothing persisted yet. -/
def st7 : OrchState :=
  { agents := [workerRow]
    tasks := []
    nextTaskId := 1
    locks := { rows := [{ id := 1, project_id := 1, file_path := "f.txt"
                          locked_by_agent_id := 7, lock_type := .write
                          acquired := 0, expires := 300000 }], nextId := 2 }
    saved := []
    mem := [(7, [])]
    running := [] }

/-- The same state with agent 7's running flag already set (an in-flight
run). -/
def st7running : OrchState := { st7 with running := [(7, true)] }

/-- An `executeTask` oracle that appends the prompt turn and then throws. -/
def failingRun : List ChatMsg → List ChatMsg × Except String String :=
  fun h => (h ++ [⟨.user, "p"⟩], .error "boom")

/-- An `executeTask` oracle that appends the prompt turn and an assistant
turn and succeeds. -/
def succeedingRun : List ChatMsg → List ChatMsg × Except String String :=
  fun h => (h ++ [⟨.user, "p"⟩, ⟨.assistant, "done"⟩], .ok "done")

/-- The failing `executeAgentTask` call of the C2 counterexample. -/
def c2FailingCall : OrchState × Except String String :=
  MultiAgentSessionManager.executeAgentTask st7 7 none failingRun 0

/-- A coordinator-only project state: one coordinator (id 1, project 1),
no other agents, no tasks. -/
def coordOnlyState : OrchState :=
  { agents := [{ id := 1, project_id := 1, name := "c", role := "coordinator"
                 status := .idle, current_task_id := none, created := 0 }]
    tasks := []
    nextTaskId := 1
    locks := emptyLockDb
    saved := []
    mem := []
    running := [] }

/-- Specification-side predicate: after an `executeAgentTask` exit with
outcome `res`, the agent's running flag is clear, no stored file lock is
held by the agent, and — on the success outcome — the persisted history
equals the in-memory history. -/
def cleanExit (st : OrchState) (agentId : Nat) (res : Except String String) : Prop :=
  MultiAgentSessionManager.isRunningFlag st agentId = false ∧
  (∀ r ∈ st.locks.rows, r.locked_by_agent_id ≠ agentId) ∧
  (∀ c, res = .ok c → alookup st.saved agentId = alookup st.mem agentId)

/-! ## Helper lemmas -/

theorem find?_key_append {α : Type} (l : List (Nat × α)) (k : Nat) (v : α)
    (h : l.any (fun e => e.1 = k) = false) :
    ((l ++ [(k, v)]).find? (fun e => e.1 = k)) = some (k, v) := by
  induction l with
  | nil => simp
  | cons e es ih =>
    simp only [List.any_cons, Bool.or_eq_false_iff] at h
    have he : (decide (e.1 = k)) = false := h.1
    simp only [List.cons_append, List.find?_cons, he]
    exact ih h.2

theorem find?_key_map_set {α : Type} (l : List (Nat × α)) (k : Nat) (v : α)
    (h : l.any (fun e => e.1 = k) = true) :
    ((l.map (fun e => if e.1 = k then (k, v) else e)).find?
      (fun e => e.1 = k)) = some (k, v) := by
  induction l with
  | nil => simp at h
  | cons e es ih =>
    by_cases he : e.1 = k
    · simp [List.find?_cons, he]
    · simp only [List.any_cons, Bool.or_eq_true, decide_eq_true_eq] at h
      have hes : es.any (fun e => e.1 = k) = true := by
        cases h with
        | inl h => exact absurd h he
        | inr h => exact h
      rw [List.map_cons, if_neg he, List.find?_cons]
      simp only [decide_eq_false he]
      exact ih hes

theorem alookup_aset_self {α : Type} (l : List (Nat × α)) (k : Nat) (v : α) :
    alookup (aset l k v) k = some v := by
  unfold aset alookup
  by_cases hany : l.any (fun e => e.1 = k) = true
  · rw [if_pos hany, find?_key_map_set l k v hany]
    rfl
  · rw [if_neg hany, find?_key_append l k v (Bool.eq_false_iff.mpr hany)]
    rfl

theorem mem_singleton_of_filter_eq {α : Type} {l : List α} {p : α → Bool}
    {x a : α} (h : l.filter p = [a]) (hx : x ∈ l) (hpx : p x = true) : x = a := by
  have : x ∈ l.filter p := List.mem_filter.mpr ⟨hx, hpx⟩
  rw [h] at this
  simpa using this

/-! ## Lock registry claims -/

/-- C5: a write lock held by one agent makes any other agent's acquire
fail with the conflict error naming the holder — but the second half of
the claim fails: two read locks on the same path by different holders do
NOT both succeed, because the schema's
`UNIQUE(project_id, file_path, lock_type)` rejects the second read row
(despite the source's own `Multiple read locks are allowed` comment).
Agent 1 takes a read lock; agent 2's read acquire on the same path hits
the UNIQUE branch. -/
theorem second_read_lock_fails_unique_constraint :
    (FileLockManager.acquireLock emptyLockDb 1 "src/app.js" 1 .read none 0).2 =
      .ok { id := 1, project_id := 1, file_path := "src/app.js"
            locked_by_agent_id := 1, lock_type := .read, acquired := 0
            expires := 300000 } ∧
    (FileLockManager.acquireLock oneReadLockDb 1 "src/app.js" 2 .read none 5).2 =
      .error .concurrentLock :=
  ⟨rfl, rfl⟩

/-- C6 counterexample: a write lock acquired with `expiresIn = 0` is NOT
treated as absent — the `expiresIn || defaultExpirationMs` fallback gives
it the 5-minute default expiry, so `check` still returns it and a
different holder's acquire fails with a conflict naming the holder. -/
theorem ttl_zero_lock_is_not_absent :
    (FileLockManager.checkLock ttlZeroLockDb 1 "a.txt" 1).2 =
      some { id := 1, project_id := 1, file_path := "a.txt"
             locked_by_agent_id := 1, lock_type := .write, acquired := 0
             expires := 300000 } ∧
    (FileLockManager.acquireLock ttlZeroLockDb 1 "a.txt" 2 .write none 1).2 =
      .error (.conflict 1 .write) :=
  ⟨rfl, rfl⟩

/-- C6 amended: a lock whose expiry timestamp has strictly passed is
treated as absent — `check` purges it and returns none, and the next
`acquire` on that path (in particular by a different holder) succeeds; a
ttl of 0, however, falls back to the default 5-minute expiry. -/
theorem expired_lock_purged_and_reacquirable
    (db : LockDb) (p : Nat) (path : String) (b : Nat) (kind : LockType)
    (expiresIn : Option Nat) (now : Nat) (l : LockRow)
    (hp : p ≠ 0) (hpath : path ≠ "") (hb : b ≠ 0)
    (hrows : db.rows.filter (FileLockManager.matchesPath p path) = [l])
    (hexp : l.expires < now) :
    (FileLockManager.checkLock db p path now).2 = none ∧
    ((FileLockManager.checkLock db p path now).1.rows.filter
      (FileLockManager.matchesPath p path)) = [] ∧
    ∃ row, (FileLockManager.acquireLock db p path b kind expiresIn now).2 =
      .ok row := by
  have hsel : FileLockManager.selectLock db.rows p path = some l := by
    unfold FileLockManager.selectLock
    rw [hrows]
    rfl
  have hchk : FileLockManager.checkLock db p path now =
      ((FileLockManager.releaseLock db p path l.locked_by_agent_id).1, none) := by
    unfold FileLockManager.checkLock
    rw [hsel]
    simp [hexp]
  have hpurged :
      ((FileLockManager.releaseLock db p path l.locked_by_agent_id).1.rows.filter
        (FileLockManager.matchesPath p path)) = [] := by
    unfold FileLockManager.releaseLock
    simp only [List.filter_filter]
    apply List.filter_eq_nil_iff.mpr
    intro r hr
    by_cases hm : FileLockManager.matchesPath p path r = true
    · have hrl : r = l := mem_singleton_of_filter_eq hrows hr hm
      subst hrl
      simp [hm]
    · simp [Bool.eq_false_iff.mpr hm]
  have hnomatch : ∀ r ∈ (FileLockManager.releaseLock db p path
      l.locked_by_agent_id).1.rows, FileLockManager.matchesPath p path r = false := by
    intro r hr
    by_cases hm : FileLockManager.matchesPath p path r = true
    · exfalso
      have : r ∈ (FileLockManager.releaseLock db p path
          l.locked_by_agent_id).1.rows.filter (FileLockManager.matchesPath p path) :=
        List.mem_filter.mpr ⟨hr, hm⟩
      rw [hpurged] at this
      simp at this
    · exact Bool.eq_false_iff.mpr hm
  refine ⟨by rw [hchk], by rw [hchk]; exact hpurged, ?_⟩
  unfold FileLockManager.acquireLock
  have hguard : ¬(p = 0 ∨ path = "" ∨ b = 0) := by
    push_neg
    exact ⟨hp, hpath, hb⟩
  rw [if_neg hguard, hchk]
  unfold FileLockManager.insertLock
  have hany : ((FileLockManager.releaseLock db p path l.locked_by_agent_id).1.rows.any
      (fun r => FileLockManager.matchesPath p path r && r.lock_type = kind)) = false := by
    apply List.any_eq_false.mpr
    intro r hr
    rw [hnomatch r hr]
    simp
  dsimp only
  rw [hany]
  exact ⟨_, rfl⟩

/-- C6 amended, witness: agent 1's 1000 ms write lock on `b.txt` has
expired by time 2000; `check` reports none and purges, and agent 2's
acquire succeeds. -/
theorem expired_lock_purged_witness :
    (FileLockManager.checkLock shortWriteLockDb 1 "b.txt" 2000).2 = none ∧
    ((FileLockManager.checkLock shortWriteLockDb 1 "b.txt" 2000).1.rows.filter
      (FileLockManager.matchesPath 1 "b.txt")) = [] ∧
    ∃ row, (FileLockManager.acquireLock shortWriteLockDb 1 "b.txt" 2 .write
      none 2000).2 = .ok row :=
  expired_lock_purged_and_reacquirable shortWriteLockDb 1 "b.txt" 2 .write none 2000
    { id := 1, project_id := 1, file_path := "b.txt", locked_by_agent_id := 1
      lock_type := .write, acquired := 0, expires := 1000 }
    (by decide) (by decide) (by decide) (by rfl) (by decide)

/-- C9 counterexample: re-acquiring an unexpired lock as the same holder
with the same kind returns the stored lock with its ORIGINAL expiry
(acquired at 0 with a 1000 ms ttl, re-acquired at 500): the expiry stays
1000 instead of the refreshed 500 + 1000. -/
theorem reacquire_same_holder_does_not_refresh_expiry :
    (FileLockManager.acquireLock shortWriteLockDb 1 "b.txt" 1 .write
      (some 1000) 500).2 =
      .ok { id := 1, project_id := 1, file_path := "b.txt"
            locked_by_agent_id := 1, lock_type := .write, acquired := 0
            expires := 1000 } ∧
    (1000 : Nat) ≠ 500 + 1000 :=
  ⟨rfl, by decide⟩

/-- C9 amended: re-acquiring an unexpired lock held by the same holder
with the same kind is idempotent — the call succeeds and returns the
stored lock unchanged, leaving the table untouched (the expiry is NOT
refreshed). -/
theorem reacquire_same_holder_idempotent
    (db : LockDb) (p : Nat) (path : String) (agent : Nat) (kind : LockType)
    (expiresIn : Option Nat) (now : Nat) (l : LockRow)
    (hp : p ≠ 0) (hpath : path ≠ "") (ha : agent ≠ 0)
    (hsel : FileLockManager.selectLock db.rows p path = some l)
    (hexp : ¬ l.expires < now)
    (hholder : l.locked_by_agent_id = agent) (hkind : l.lock_type = kind) :
    FileLockManager.acquireLock db p path agent kind expiresIn now =
      (db, .ok l) := by
  unfold FileLockManager.acquireLock
  have hguard : ¬(p = 0 ∨ path = "" ∨ agent = 0) := by
    push_neg
    exact ⟨hp, hpath, ha⟩
  rw [if_neg hguard]
  have hchk : FileLockManager.checkLock db p path now = (db, some l) := by
    unfold FileLockManager.checkLock
    rw [hsel]
    simp [hexp]
  rw [hchk]
  simp [hholder, hkind]

/-- C9 amended, witness: re-acquiring the `b.txt` write lock at time 500
returns the stored lock (expiry still 1000) and leaves the table as it
was. -/
theorem reacquire_same_holder_witness :
    FileLockManager.acquireLock shortWriteLockDb 1 "b.txt" 1 .write
      (some 1000) 500 =
      (shortWriteLockDb,
       .ok { id := 1, project_id := 1, file_path := "b.txt"
             locked_by_agent_id := 1, lock_type := .write, acquired := 0
             expires := 1000 }) :=
  reacquire_same_holder_idempotent shortWriteLockDb 1 "b.txt" 1 .write
    (some 1000) 500
    { id := 1, project_id := 1, file_path := "b.txt", locked_by_agent_id := 1
      lock_type := .write, acquired := 0, expires := 1000 }
    (by decide) (by decide) (by decide) (by rfl) (by decide) rfl rfl

/-! ## Reasoning loop claims -/

/-- C3: with a reasoning-service stub whose every response requests an
action, `generateResponse` does NOT fail with the maximum-iterations
error after 10 iterations: the `message = toolMessage` write to the
`const message` binding throws a `TypeError` already during the first
iteration's feedback handling (two fetches, two assistant turns), so the
iteration cap is unreachable. -/
theorem generateResponse_const_assignment_after_first_iteration :
    Agent.generateResponse alwaysToolSvc throwingInvokerExec [] "do it" =
      ([⟨.user, "do it"⟩, ⟨.assistant, ""⟩, ⟨.assistant, ""⟩],
        .error .typeErrorConstAssignment) :=
  rfl

/-- C4 counterexample: a run that fails on the feedback fetch (after one
assistant turn was appended) does NOT roll the user prompt turn back —
the final history is `[user, assistant]`, not the pre-run `[]`. -/
theorem generateResponse_feedback_failure_keeps_prompt_turn :
    Agent.generateResponse feedbackFailSvc throwingInvokerExec [] "p" =
      ([⟨.user, "p"⟩, ⟨.assistant, "a"⟩],
        .error (.xaiToolFeedbackError "boom")) ∧
    ([⟨.user, "p"⟩, ⟨.assistant, "a"⟩] : List ChatMsg) ≠ [] :=
  ⟨rfl, by decide⟩

/-- C4 amended: the prompt turn is rolled back exactly when the failure
strikes before any assistant turn is appended — when the run's first
reasoning-service call fails, the history is restored to its pre-run
state. -/
theorem generateResponse_first_call_failure_rolls_back
    (svc : Nat → Except String LLMMessage)
    (exec : List ToolCall → List ToolResult)
    (hist0 : List ChatMsg) (prompt : String) (e : String)
    (h : svc 0 = .error e) :
    Agent.generateResponse svc exec hist0 prompt =
      (hist0, .error (.xaiApiError e)) := by
  have hloop : Agent.loopIter svc exec 10 0 (hist0 ++ [⟨.user, prompt⟩]) [] =
      (hist0 ++ [⟨.user, prompt⟩], .error (.xaiApiError e)) := by
    show Agent.loopIter svc exec (9 + 1) 0 (hist0 ++ [⟨.user, prompt⟩]) [] = _
    rw [Agent.loopIter, h]
  unfold Agent.generateResponse Agent.MAX_ITERATIONS
  rw [hloop]
  simp [Agent.rollbackUserTurn, List.getLast?_concat, List.dropLast_concat]

/-- C4 amended, witness: a service that is down on the very first fetch
leaves the history exactly as it was before the run. -/
theorem generateResponse_rollback_witness :
    firstCallFailSvc 0 = .error "down" ∧
    Agent.generateResponse firstCallFailSvc throwingInvokerExec [] "p" =
      ([], .error (.xaiApiError "down")) :=
  ⟨rfl, generateResponse_first_call_failure_rolls_back firstCallFailSvc
    throwingInvokerExec [] "p" "down" rfl⟩

/-! ## Task state machine claims -/

/-- C7: over any sequence of `updateTaskStatus` calls, `started` ends up
as the initially stored value if one was set (never cleared or
overwritten) and otherwise as the clock of the FIRST call whose status is
`in_progress`; `completed` likewise with the first `completed`/`failed`
call. -/
theorem updateTaskStatus_timestamps_set_once (t : TaskRow)
    (ops : List TaskManager.UpdateCall) :
    (TaskManager.applyUpdates t ops).started =
      TaskManager.keepFirst t.started
        (TaskManager.firstTime TaskManager.isInProgress ops) ∧
    (TaskManager.applyUpdates t ops).completed =
      TaskManager.keepFirst t.completed
        (TaskManager.firstTime TaskManager.isTerminal ops) := by
  induction ops generalizing t with
  | nil =>
    constructor
    · cases h : t.started <;>
        simp [TaskManager.applyUpdates, TaskManager.firstTime,
          TaskManager.keepFirst, h]
    · cases h : t.completed <;>
        simp [TaskManager.applyUpdates, TaskManager.firstTime,
          TaskManager.keepFirst, h]
  | cons op ops ih =>
    have happ : TaskManager.applyUpdates t (op :: ops) =
        TaskManager.applyUpdates
          (TaskManager.updateTaskStatus t op.status op.result op.error op.now)
          ops := rfl
    rw [happ]
    rcases ih (TaskManager.updateTaskStatus t op.status op.result op.error
      op.now) with ⟨ihs, ihc⟩
    rw [ihs, ihc]
    constructor
    · cases hst : t.started with
      | some s =>
        have hupd : (TaskManager.updateTaskStatus t op.status op.result
            op.error op.now).started = some s := by
          simp [TaskManager.updateTaskStatus, hst]
        rw [hupd]
        rfl
      | none =>
        by_cases hop : op.status = .in_progress
        · have hupd : (TaskManager.updateTaskStatus t op.status op.result
              op.error op.now).started = some op.now := by
            simp [TaskManager.updateTaskStatus, hst, hop]
          rw [hupd]
          simp [TaskManager.firstTime, TaskManager.keepFirst,
            TaskManager.isInProgress, List.find?_cons, hop]
        · have hupd : (TaskManager.updateTaskStatus t op.status op.result
              op.error op.now).started = none := by
            simp [TaskManager.updateTaskStatus, hst, hop]
          rw [hupd]
          simp [TaskManager.firstTime, TaskManager.keepFirst,
            TaskManager.isInProgress, List.find?_cons, hop]
    · cases hct : t.completed with
      | some c =>
        have hupd : (TaskManager.updateTaskStatus t op.status op.result
            op.error op.now).completed = some c := by
          simp [TaskManager.updateTaskStatus, hct]
        rw [hupd]
        rfl
      | none =>
        by_cases hop : op.status = .completed ∨ op.status = .failed
        · have hupd : (TaskManager.updateTaskStatus t op.status op.result
              op.error op.now).completed = some op.now := by
            simp [TaskManager.updateTaskStatus, hct, hop]
          rw [hupd]
          rcases hop with hop | hop <;>
            simp [TaskManager.firstTime, TaskManager.keepFirst,
              TaskManager.isTerminal, List.find?_cons, hop]
        · push_neg at hop
          have hupd : (TaskManager.updateTaskStatus t op.status op.result
              op.error op.now).completed = none := by
            simp [TaskManager.updateTaskStatus, hct, hop.1, hop.2]
          rw [hupd]
          simp [TaskManager.firstTime, TaskManager.keepFirst,
            TaskManager.isTerminal, List.find?_cons, hop.1, hop.2]

/-- C10: `updateTaskStatus` writes `result` and `error` from exactly the
supplied arguments, whatever the task previously stored — so a later
update on a finished task erases the recorded result/error text (here: a
`blocked` update with omitted arguments, i.e. nulls, on a completed task
wipes both fields while leaving the guarded timestamps in place). -/
theorem updateTaskStatus_overwrites_result_and_error
    (t : TaskRow) (status : TaskStatus) (result error : Option String)
    (now : Nat) :
    (TaskManager.updateTaskStatus t status result error now).result = result ∧
    (TaskManager.updateTaskStatus t status result error now).error = error ∧
    (TaskManager.updateTaskStatus
      { t with status := .completed, result := some "r", error := some "e"
               started := some 1, completed := some 2 }
      .blocked none none now).result = none ∧
    (TaskManager.updateTaskStatus
      { t with status := .completed, result := some "r", error := some "e"
               started := some 1, completed := some 2 }
      .blocked none none now).started = some 1 :=
  ⟨rfl, rfl, rfl, rfl⟩

/-! ## Orchestrator claims -/

theorem isRunningFlag_setRunning_self (st : OrchState) (a : Nat) (b : Bool) :
    MultiAgentSessionManager.isRunningFlag
      (MultiAgentSessionManager.setRunning st a b) a = b := by
  unfold MultiAgentSessionManager.isRunningFlag MultiAgentSessionManager.setRunning
  rw [alookup_aset_self]
  rfl

theorem mem_releaseLocksOf_ne (st : OrchState) (a : Nat) :
    ∀ r ∈ (MultiAgentSessionManager.releaseLocksOf st a).locks.rows,
      r.locked_by_agent_id ≠ a := by
  intro r hr
  unfold MultiAgentSessionManager.releaseLocksOf
    FileLockManager.releaseAllAgentLocks at hr
  simp only [List.mem_filter] at hr
  simpa using hr.2

theorem findTask_mapTask_isSome (tasks : List TaskRow) (tid tid2 : Nat)
    (f : TaskRow → TaskRow) (hid : ∀ t, (f t).id = t.id) :
    (MultiAgentSessionManager.findTask
      (MultiAgentSessionManager.mapTask tasks tid f) tid2).isSome =
      (MultiAgentSessionManager.findTask tasks tid2).isSome := by
  unfold MultiAgentSessionManager.findTask MultiAgentSessionManager.mapTask
  induction tasks with
  | nil => rfl
  | cons t ts ih =>
    have hhead : (if t.id = tid then f t else t).id = t.id := by
      by_cases h1 : t.id = tid
      · rw [if_pos h1]
        exact hid t
      · rw [if_neg h1]
    rw [List.map_cons, List.find?_cons, List.find?_cons, hhead]
    cases decide (t.id = tid2) with
    | false => exact ih
    | true => rfl

theorem updateTaskStatusDb_found (st : OrchState) (tid : Nat)
    (status : TaskStatus) (r e : Option String) (now : Nat) (tk : TaskRow)
    (htk : MultiAgentSessionManager.findTask st.tasks tid = some tk) :
    MultiAgentSessionManager.updateTaskStatusDb st tid status r e now =
      (MultiAgentSessionManager.applyTaskUpdate st tid status r e now,
        .ok ()) := by
  unfold MultiAgentSessionManager.updateTaskStatusDb
  rw [htk]

theorem saveAgentHistory_of_mem (st : OrchState) (a : Nat) (h : List ChatMsg)
    (hmem : alookup st.mem a = some h) :
    MultiAgentSessionManager.saveAgentHistory st a =
      { st with saved := aset st.saved a h } := by
  unfold MultiAgentSessionManager.saveAgentHistory
  rw [hmem]

theorem execCatch_clean (st : OrchState) (agentId : Nat) (taskId : Option Nat)
    (e : String) (now : Nat)
    (htask : ∀ tid, taskId = some tid →
      (MultiAgentSessionManager.findTask st.tasks tid).isSome = true) :
    cleanExit (MultiAgentSessionManager.execCatch st agentId taskId e now).1
      agentId (MultiAgentSessionManager.execCatch st agentId taskId e now).2 := by
  cases taskId with
  | none =>
    refine ⟨isRunningFlag_setRunning_self _ _ _, ?_, ?_⟩
    · exact mem_releaseLocksOf_ne _ _
    · intro c hc
      simp [MultiAgentSessionManager.execCatch] at hc
  | some tid =>
    obtain ⟨tk, htk⟩ := Option.isSome_iff_exists.mp (htask tid rfl)
    have hupd := updateTaskStatusDb_found st tid .failed none (some e) now tk htk
    unfold MultiAgentSessionManager.execCatch
    dsimp only
    rw [hupd]
    refine ⟨isRunningFlag_setRunning_self _ _ _, ?_, ?_⟩
    · exact mem_releaseLocksOf_ne _ _
    · intro c hc
      simp at hc

theorem execSuccessTail_clean (st : OrchState) (agentId : Nat)
    (taskId : Option Nat) (content : String) (now : Nat) (h : List ChatMsg)
    (hmem : alookup st.mem agentId = some h)
    (htask : ∀ tid, taskId = some tid →
      (MultiAgentSessionManager.findTask st.tasks tid).isSome = true) :
    cleanExit
      (MultiAgentSessionManager.execSuccessTail st agentId taskId content now).1
      agentId
      (MultiAgentSessionManager.execSuccessTail st agentId taskId content
        now).2 := by
  cases taskId with
  | none =>
    have hsave := saveAgentHistory_of_mem st agentId h hmem
    unfold MultiAgentSessionManager.execSuccessTail
    dsimp only
    rw [hsave]
    refine ⟨isRunningFlag_setRunning_self _ _ _, ?_, ?_⟩
    · exact mem_releaseLocksOf_ne _ _
    · intro c _
      show alookup (aset st.saved agentId h) agentId = alookup st.mem agentId
      rw [alookup_aset_self, hmem]
  | some tid =>
    obtain ⟨tk, htk⟩ := Option.isSome_iff_exists.mp (htask tid rfl)
    have hupd := updateTaskStatusDb_found st tid .completed (some content)
      none now tk htk
    have hmem1 : alookup (MultiAgentSessionManager.applyTaskUpdate st tid
        .completed (some content) none now).mem agentId = some h := hmem
    have hsave := saveAgentHistory_of_mem
      (MultiAgentSessionManager.applyTaskUpdate st tid .completed
        (some content) none now) agentId h hmem1
    unfold MultiAgentSessionManager.execSuccessTail
    dsimp only
    rw [hupd]
    dsimp only
    rw [hsave]
    refine ⟨isRunningFlag_setRunning_self _ _ _, ?_, ?_⟩
    · exact mem_releaseLocksOf_ne _ _
    · intro c _
      show alookup (aset (MultiAgentSessionManager.applyTaskUpdate st tid
        .completed (some content) none now).saved agentId h) agentId =
        alookup st.mem agentId
      rw [alookup_aset_self, hmem]

theorem execRunPhase_clean (st : OrchState) (agentId : Nat)
    (taskId : Option Nat)
    (run : List ChatMsg → List ChatMsg × Except String String) (now : Nat)
    (h : List ChatMsg)
    (hmem : alookup st.mem agentId = some h)
    (htask : ∀ tid, taskId = some tid →
      (MultiAgentSessionManager.findTask st.tasks tid).isSome = true) :
    cleanExit
      (MultiAgentSessionManager.execRunPhase st agentId taskId run now).1
      agentId
      (MultiAgentSessionManager.execRunPhase st agentId taskId run now).2 := by
  unfold MultiAgentSessionManager.execRunPhase
  rw [hmem]
  simp only [Option.getD_some]
  rcases hr : run h with ⟨h2, res2⟩
  dsimp only
  have hmem1 : alookup (aset st.mem agentId h2) agentId = some h2 :=
    alookup_aset_self _ _ _
  have htask1 : ∀ tid, taskId = some tid →
      (MultiAgentSessionManager.findTask st.tasks tid).isSome = true := htask
  cases res2 with
  | ok c => exact execSuccessTail_clean _ agentId taskId c now h2 hmem1 htask1
  | error e => exact execCatch_clean _ agentId taskId e now htask1

theorem execWithTask_clean (st : OrchState) (agentId tid : Nat)
    (run : List ChatMsg → List ChatMsg × Except String String) (now : Nat)
    (h : List ChatMsg)
    (hmem : alookup st.mem agentId = some h)
    (htask : (MultiAgentSessionManager.findTask st.tasks tid).isSome = true) :
    cleanExit
      (MultiAgentSessionManager.execWithTask st agentId tid run now).1 agentId
      (MultiAgentSessionManager.execWithTask st agentId tid run now).2 := by
  obtain ⟨tk, htk⟩ := Option.isSome_iff_exists.mp htask
  have hupd := updateTaskStatusDb_found st tid .in_progress none none now tk htk
  have hmem4 : alookup (MultiAgentSessionManager.applyTaskUpdate st tid
      .in_progress none none now).mem agentId = some h := hmem
  have htask4 : (MultiAgentSessionManager.findTask
      (MultiAgentSessionManager.applyTaskUpdate st tid .in_progress none none
        now).tasks tid).isSome = true := by
    show (MultiAgentSessionManager.findTask (MultiAgentSessionManager.mapTask
      st.tasks tid (fun t => TaskManager.updateTaskStatus t .in_progress none
        none now)) tid).isSome = true
    rw [findTask_mapTask_isSome st.tasks tid tid
      (fun t => TaskManager.updateTaskStatus t .in_progress none none now)
      (fun t => rfl)]
    exact htask
  unfold MultiAgentSessionManager.execWithTask
  rw [hupd]
  dsimp only
  apply execRunPhase_clean _ agentId (some tid) run now h hmem4
  intro tid2 htid2
  cases htid2
  exact htask4

/-- C1: a second `executeAgentTask` call for an agent whose running flag
is set fails with the already-running error and leaves the whole
orchestrator state — in particular the in-flight run's conversation
history — untouched. -/
theorem executeAgentTask_already_running_rejects_without_mutation
    (st : OrchState) (agentId : Nat) (taskId : Option Nat)
    (run : List ChatMsg → List ChatMsg × Except String String) (now : Nat)
    (h : List ChatMsg)
    (hmem : alookup st.mem agentId = some h)
    (hflag : MultiAgentSessionManager.isRunningFlag st agentId = true) :
    MultiAgentSessionManager.executeAgentTask st agentId taskId run now =
      (st, .error ("Agent " ++ toString agentId ++
        " is already running a task")) := by
  unfold MultiAgentSessionManager.executeAgentTask
  have hget : MultiAgentSessionManager.getAgentInstance st agentId =
      (st, .ok h) := by
    unfold MultiAgentSessionManager.getAgentInstance
    rw [hmem]
  rw [hget]
  dsimp only
  rw [hflag]
  rfl

/-- C1 witness: with agent 7's flag set, the call is rejected and the
state is returned unchanged. -/
theorem executeAgentTask_already_running_witness :
    alookup st7running.mem 7 = some [] ∧
    MultiAgentSessionManager.isRunningFlag st7running 7 = true ∧
    MultiAgentSessionManager.executeAgentTask st7running 7 none failingRun 0 =
      (st7running, .error ("Agent " ++ toString 7 ++
        " is already running a task")) :=
  ⟨rfl, rfl,
    executeAgentTask_already_running_rejects_without_mutation st7running 7
      none failingRun 0 [] rfl rfl⟩

/-- C2 counterexample: a run that fails does NOT persist the conversation
history — agent 7's failed run leaves `agent_messages` empty while the
in-memory history holds the prompt turn, contradicting the claim that
history is persisted on every exit path. -/
theorem executeAgentTask_failure_skips_history_persist :
    c2FailingCall.2 = .error "boom" ∧
    alookup c2FailingCall.1.saved 7 = none ∧
    alookup c2FailingCall.1.mem 7 = some [⟨.user, "p"⟩] :=
  ⟨rfl, rfl, rfl⟩

/-- C2 amended: on every exit path of a started run — success, a failing
run, or a failing task update — the agent's running flag is cleared and
every file lock held by the agent is released before the outcome
propagates; the conversation history, however, is persisted only on the
success path. -/
theorem executeAgentTask_cleanup_on_every_exit
    (st : OrchState) (agentId : Nat) (taskId : Option Nat)
    (run : List ChatMsg → List ChatMsg × Except String String) (now : Nat)
    (h : List ChatMsg)
    (hmem : alookup st.mem agentId = some h)
    (hflag : MultiAgentSessionManager.isRunningFlag st agentId = false)
    (htask : ∀ tid, taskId = some tid →
      (MultiAgentSessionManager.findTask st.tasks tid).isSome = true) :
    cleanExit
      (MultiAgentSessionManager.executeAgentTask st agentId taskId run now).1
      agentId
      (MultiAgentSessionManager.executeAgentTask st agentId taskId run
        now).2 := by
  unfold MultiAgentSessionManager.executeAgentTask
  have hget : MultiAgentSessionManager.getAgentInstance st agentId =
      (st, .ok h) := by
    unfold MultiAgentSessionManager.getAgentInstance
    rw [hmem]
  rw [hget]
  dsimp only
  rw [if_neg (show ¬(MultiAgentSessionManager.isRunningFlag st agentId = true)
    from by rw [hflag]; decide)]
  cases taskId with
  | none =>
    exact execRunPhase_clean _ agentId none run now h hmem htask
  | some tid =>
    exact execWithTask_clean _ agentId tid run now h hmem (htask tid rfl)

/-- C2 amended, witness: agent 7's successful run ends with the flag
clear, its write lock released, and its history persisted. -/
theorem executeAgentTask_cleanup_witness :
    alookup st7.mem 7 = some [] ∧
    MultiAgentSessionManager.isRunningFlag st7 7 = false ∧
    cleanExit
      (MultiAgentSessionManager.executeAgentTask st7 7 none succeedingRun 0).1
      7
      (MultiAgentSessionManager.executeAgentTask st7 7 none succeedingRun
        0).2 :=
  ⟨rfl, rfl,
    executeAgentTask_cleanup_on_every_exit st7 7 none succeedingRun 0 [] rfl
      rfl (fun tid h => by cases h)⟩

/-! ## Coordinator delegation claim -/

theorem getAgentByRole_eq_none (agents : List AgentRow) (p : Nat)
    (role : String)
    (h : ∀ a ∈ agents, ¬(a.project_id = p ∧ a.role = role)) :
    CoordinatorAgent.getAgentByRole agents p role = none := by
  unfold CoordinatorAgent.getAgentByRole
  have hf : agents.filter (fun a => a.project_id = p && a.role = role) = [] := by
    apply List.filter_eq_nil_iff.mpr
    intro a ha
    simpa using h a ha
  rw [hf]
  rfl

theorem findTask_append_fresh (tasks : List TaskRow) (t : TaskRow)
    (h : ∀ u ∈ tasks, u.id ≠ t.id) :
    MultiAgentSessionManager.findTask (tasks ++ [t]) t.id = some t := by
  unfold MultiAgentSessionManager.findTask
  induction tasks with
  | nil => simp
  | cons u us ih =>
    rw [List.cons_append, List.find?_cons,
      decide_eq_false (h u (List.mem_cons_self u us))]
    exact ih (fun v hv => h v (List.mem_cons_of_mem u hv))

/-- C8: an `assign_task` dispatched for a role with no matching agent in
the coordinator's project still creates the task — it is stored with
status `pending` — and the action result reports `success = false` with
the created task's id in its data payload. -/
theorem assignTask_missing_role_creates_pending_task
    (st : OrchState) (coordId : Nat) (role title desc : String)
    (priority : Int) (now : Nat) (coord : AgentRow)
    (hrole : role ≠ "") (htitle : title ≠ "") (hdesc : desc ≠ "")
    (hcoord : st.agents.find? (fun a => a.id = coordId) = some coord)
    (hproj : coord.project_id ≠ 0)
    (hnorole : ∀ a ∈ st.agents,
      ¬(a.project_id = coord.project_id ∧ a.role = role))
    (hfresh : ∀ t ∈ st.tasks, t.id ≠ st.nextTaskId) :
    (CoordinatorAgent.assignTask st coordId role title desc priority
      now).2.success = false ∧
    (CoordinatorAgent.assignTask st coordId role title desc priority
      now).2.data =
      some { taskId := st.nextTaskId, agentId := none, status := .pending } ∧
    MultiAgentSessionManager.findTask
      (CoordinatorAgent.assignTask st coordId role title desc priority
        now).1.tasks st.nextTaskId =
      some (TaskManager.newTask st.nextTaskId coord.project_id title desc
        (some coordId) priority now) := by
  have hguard : ¬(role = "" ∨ title = "" ∨ desc = "") := by
    push_neg
    exact ⟨hrole, htitle, hdesc⟩
  have hnone : CoordinatorAgent.getAgentByRole st.agents coord.project_id
      role = none := getAgentByRole_eq_none st.agents coord.project_id role
    hnorole
  unfold CoordinatorAgent.assignTask
  rw [if_neg hguard, hcoord]
  dsimp only
  rw [if_neg hproj]
  rw [hnone]
  refine ⟨rfl, rfl, ?_⟩
  exact findTask_append_fresh st.tasks _ hfresh

/-- C8 witness: a project holding only the coordinator; `assign_task` for
role `tester` creates pending task 1 and reports failure carrying its
id. -/
theorem assignTask_missing_role_witness :
    (CoordinatorAgent.assignTask coordOnlyState 1 "tester" "t" "d" 0
      0).2.success = false ∧
    (CoordinatorAgent.assignTask coordOnlyState 1 "tester" "t" "d" 0
      0).2.data = some { taskId := 1, agentId := none, status := .pending } ∧
    MultiAgentSessionManager.findTask
      (CoordinatorAgent.assignTask coordOnlyState 1 "tester" "t" "d" 0
        0).1.tasks 1 =
      some (TaskManager.newTask 1 1 "t" "d" (some 1) 0 0) :=
  assignTask_missing_role_creates_pending_task coordOnlyState 1 "tester" "t"
    "d" 0 0
    { id := 1, project_id := 1, name := "c", role := "coordinator"
      status := .idle, current_task_id := none, created := 0 }
    (by decide) (by decide) (by decide) rfl (by decide) (by decide)
    (by decide)

end DevTeam
